import Mathlib

/-!
Verification of uproot-methods `TVector3.py` (scalar `TVector3` and batched
`TVector3Array` three-vectors).

Modelling conventions:
 * numpy/python floats are modelled as real numbers (`ℝ`); the rendering
   claim, which is about decimal strings, is modelled over `ℚ` (the concrete
   coordinates appearing in that claim are exactly representable doubles, on
   which the Python `.4g` algorithm agrees with the exact-rational one).
 * a batched vector is a record of three coordinate columns (`List`); numpy
   elementwise arithmetic on columns is `List.zipWith` / `List.map`
   (scalar broadcast).
 * Python exceptions are an `Except PyError` result.  In Python 3 the
   statement `raise NotImplemented` does not raise `NotImplementedError`:
   `NotImplemented` is not an exception, so the interpreter raises
   `TypeError: exceptions must derive from BaseException`.  Likewise a read
   of an unbound local name raises `NameError`.
-/

/-- Python runtime errors that the translated code can signal. -/
inductive PyError where
  | nameError
  | typeError
deriving DecidableEq

/-- Scalar three-vector: class `TVector3` / `Methods` with fields
`_fX`, `_fY`, `_fZ` (exposed as properties `x`, `y`, `z`). -/
structure TVector3 (R : Type) where
  fX : R
  fY : R
  fZ : R

/-- Batched three-vector: class `TVector3Array` backed by a table with
columns `fX`, `fY`, `fZ`. -/
structure TVector3Array (R : Type) where
  fX : List R
  fY : List R
  fZ : List R

variable {R : Type} [CommRing R]

/-- `Common.dot`: `out = x*x; out += y*y; out += z*z`. -/
def Common.dot (a b : TVector3 R) : R :=
  a.fX * b.fX + a.fY * b.fY + a.fZ * b.fZ

/-- `Common._cross`: the component triple
`(y1*z2 - z1*y2, z1*x2 - x1*z2, x1*y2 - y1*x2)`. -/
def Common.crossTriple (a b : TVector3 R) : R × R × R :=
  (a.fY * b.fZ - a.fZ * b.fY,
   a.fZ * b.fX - a.fX * b.fZ,
   a.fX * b.fY - a.fY * b.fX)

/-- `Methods.cross`: `x, y, z = self._cross(other); return self.__class__(x, y, z)`.
The polymorphic three-argument construction is modelled by building a new
`TVector3` record from the triple. -/
def TVector3.cross (a b : TVector3 R) : TVector3 R :=
  ⟨(Common.crossTriple a b).1, (Common.crossTriple a b).2.1, (Common.crossTriple a b).2.2⟩

/-- `Common._rotate_euler`: the fused 3×3 Euler transform with coefficients
precomputed from the three angles, transcribed verbatim from the source
(`c1 = cos phi`, `s1 = sin phi`, `c2 = cos theta`, `s2 = sin theta`,
`c3 = cos psi`, `s3 = sin psi`). -/
noncomputable def Common.rotateEulerTriple (v : TVector3 ℝ) (phi theta psi : ℝ) : ℝ × ℝ × ℝ :=
  let c1 := Real.cos phi
  let s1 := Real.sin phi
  let c2 := Real.cos theta
  let s2 := Real.sin theta
  let c3 := Real.cos psi
  let s3 := Real.sin psi
  let fzx2 := -s2 * c1
  let fzy2 := s2 * s1
  let fzz2 := c2
  let fxx3 := c3 * c2 * c1 - s3 * s1
  let fxy3 := -c3 * c2 * s1 - s3 * c1
  let fxz3 := c3 * s2
  let fyx3 := s3 * c2 * c1 + c3 * s1
  let fyy3 := -s3 * c2 * s1 + c3 * c1
  let fyz3 := s3 * s2
  (fxx3 * v.fX + fxy3 * v.fY + fxz3 * v.fZ,
   fyx3 * v.fX + fyy3 * v.fY + fyz3 * v.fZ,
   fzx2 * v.fX + fzy2 * v.fY + fzz2 * v.fZ)

/-- `Methods.rotate_euler` as it stands in the source.  Its whole body is
`return self.__class__(x, y, z)`, and the names `x`, `y`, `z` are never
bound in that scope (the method does not call `self._rotate_euler`), so in
Python the call raises `NameError` before constructing anything.  The
faithful translation therefore signals `nameError` for every input. -/
def TVector3.rotate_euler (v : TVector3 ℝ) (phi theta psi : ℝ) : Except PyError (TVector3 ℝ) :=
  Except.error PyError.nameError

/-- Specification-side rotation about the Z axis by angle `a`
(`(x, y, z) ↦ (x cos a - y sin a, x sin a + y cos a, z)`), written from the
wording of the spec to compare with the fused transform of the source. -/
noncomputable def specRotZ (a : ℝ) (p : ℝ × ℝ × ℝ) : ℝ × ℝ × ℝ :=
  (Real.cos a * p.1 - Real.sin a * p.2.1,
   Real.sin a * p.1 + Real.cos a * p.2.1,
   p.2.2)

/-- Specification-side rotation about the Y axis by angle `a`
(`(x, y, z) ↦ (x cos a + z sin a, y, -x sin a + z cos a)`), written from
the wording of the spec to compare with the fused transform of the source. -/
noncomputable def specRotY (a : ℝ) (p : ℝ × ℝ × ℝ) : ℝ × ℝ × ℝ :=
  (Real.cos a * p.1 + Real.sin a * p.2.2,
   p.2.1,
   -Real.sin a * p.1 + Real.cos a * p.2.2)

/-- numpy elementwise product of two coordinate columns. -/
def vmul (a b : List R) : List R := List.zipWith (fun u v => u * v) a b

/-- numpy elementwise difference of two coordinate columns. -/
def vsub (a b : List R) : List R := List.zipWith (fun u v => u - v) a b

/-- numpy elementwise sum of two coordinate columns. -/
def vadd (a b : List R) : List R := List.zipWith (fun u v => u + v) a b

/-- numpy scalar * column broadcast. -/
def vsmul (c : R) (a : List R) : List R := a.map (fun u => c * u)

/-- `TVector3Array.__init__(x, y, z)`: the backing table is created with
`min(len(x), len(y), len(z))` rows, fixing the row count, and the three
columns are then stored (each holding that many rows). -/
def TVector3Array.init (x y z : List R) : TVector3Array R :=
  let n := min (min x.length y.length) z.length
  ⟨x.take n, y.take n, z.take n⟩

/-- `ArrayMethods.cross`: `x, y, z = self._cross(other)` with numpy
elementwise column arithmetic, then `out = self.empty_like()` and the three
columns of `out` are assigned. -/
def TVector3Array.cross (a b : TVector3Array R) : TVector3Array R :=
  ⟨vsub (vmul a.fY b.fZ) (vmul a.fZ b.fY),
   vsub (vmul a.fZ b.fX) (vmul a.fX b.fZ),
   vsub (vmul a.fX b.fY) (vmul a.fY b.fX)⟩

/-- `ArrayMethods.rotate_euler`: `x, y, z = self._rotate_euler(phi, theta, psi)`,
with the scalar fused coefficients broadcast over the columns, assigned into
`self.empty_like()`. -/
noncomputable def TVector3Array.rotate_euler (v : TVector3Array ℝ) (phi theta psi : ℝ) :
    TVector3Array ℝ :=
  let c1 := Real.cos phi
  let s1 := Real.sin phi
  let c2 := Real.cos theta
  let s2 := Real.sin theta
  let c3 := Real.cos psi
  let s3 := Real.sin psi
  let fzx2 := -s2 * c1
  let fzy2 := s2 * s1
  let fzz2 := c2
  let fxx3 := c3 * c2 * c1 - s3 * s1
  let fxy3 := -c3 * c2 * s1 - s3 * c1
  let fxz3 := c3 * s2
  let fyx3 := s3 * c2 * c1 + c3 * s1
  let fyy3 := -s3 * c2 * s1 + c3 * c1
  let fyz3 := s3 * s2
  ⟨vadd (vadd (vsmul fxx3 v.fX) (vsmul fxy3 v.fY)) (vsmul fxz3 v.fZ),
   vadd (vadd (vsmul fyx3 v.fX) (vsmul fyy3 v.fY)) (vsmul fyz3 v.fZ),
   vadd (vadd (vsmul fzx2 v.fX) (vsmul fzy2 v.fY)) (vsmul fzz2 v.fZ)⟩

/-- `TVector3Array.from_spherical(r, theta, phi)` with numpy elementwise
trigonometry on the three input columns. -/
noncomputable def TVector3Array.from_spherical (r theta phi : List ℝ) : TVector3Array ℝ :=
  TVector3Array.init
    (vmul (vmul r (theta.map Real.sin)) (phi.map Real.cos))
    (vmul (vmul r (theta.map Real.sin)) (phi.map Real.sin))
    (vmul r (theta.map Real.cos))

/-- `TVector3Array.from_cylindrical(r, rho, phi, z)`: note the four
parameters; the body only uses `rho`, `phi` and `z`
(`cls(rho * cos(phi), rho * sin(phi), z)`), so `r` is dead. -/
noncomputable def TVector3Array.from_cylindrical (r rho phi z : List ℝ) : TVector3Array ℝ :=
  TVector3Array.init (vmul rho (phi.map Real.cos)) (vmul rho (phi.map Real.sin)) z

/-- `TVector3.from_spherical(r, theta, phi)` (scalar classmethod). -/
noncomputable def TVector3.from_spherical (r theta phi : ℝ) : TVector3 ℝ :=
  ⟨r * Real.sin theta * Real.cos phi,
   r * Real.sin theta * Real.sin phi,
   r * Real.cos theta⟩

/-- `TVector3.from_cylindrical(rho, phi, z)` (scalar classmethod, three
parameters). -/
noncomputable def TVector3.from_cylindrical (rho phi z : ℝ) : TVector3 ℝ :=
  ⟨rho * Real.cos phi, rho * Real.sin phi, z⟩

/-- An argument of `__array_ufunc__`: either a batched vector (an
`ArrayMethods` instance, whose columns are extracted) or a plain scalar
(appended unchanged to all three column argument lists). -/
inductive UfuncInput (R : Type) where
  | vec (v : TVector3Array R)
  | scalar (c : R)

/-- The per-coordinate argument collected by the `for obj in inputs` loop of
`__array_ufunc__`: a column for an `ArrayMethods` input, the bare scalar
otherwise. -/
def ufuncColumn (sel : TVector3Array R → List R) : UfuncInput R → List R ⊕ R
  | .vec v => .inl (sel v)
  | .scalar c => .inr c

/-- `getattr(ufunc, "__call__")(*inputs)` for a binary elementwise ufunc:
numpy applies the operation elementwise, broadcasting a scalar argument
over a column argument. -/
def ufuncApply2 (op : R → R → R) : List R ⊕ R → List R ⊕ R → List R
  | .inl xs, .inl ys => List.zipWith op xs ys
  | .inl xs, .inr c => xs.map (fun u => op u c)
  | .inr c, .inl ys => ys.map (fun u => op c u)
  | .inr c, .inr d => [op c d]

/-- `ArrayMethods.__array_ufunc__(ufunc, method, *inputs)` for a binary
elementwise ufunc `op`, transcribed branch by branch:
`if method != "__call__": raise NotImplemented` comes first, and in Python 3
raising the non-exception constant `NotImplemented` raises `TypeError`
(`exceptions must derive from BaseException`), modelled as `typeError`.
Otherwise the three per-coordinate results are computed; a binary
elementwise ufunc never returns a tuple, so the tuple branch is skipped,
then `elif method == "at": return None` (unreachable after the guard), and
otherwise the three results are assigned into `self.empty_like()`. -/
def arrayUfunc2 (op : R → R → R) (method : String) (i1 i2 : UfuncInput R) :
    Except PyError (Option (TVector3Array R)) :=
  if method ≠ "__call__" then
    Except.error PyError.typeError
  else
    let resultx := ufuncApply2 op (ufuncColumn (fun t => t.fX) i1) (ufuncColumn (fun t => t.fX) i2)
    let resulty := ufuncApply2 op (ufuncColumn (fun t => t.fY) i1) (ufuncColumn (fun t => t.fY) i2)
    let resultz := ufuncApply2 op (ufuncColumn (fun t => t.fZ) i1) (ufuncColumn (fun t => t.fZ) i2)
    if method = "at" then
      Except.ok none
    else
      Except.ok (some ⟨resultx, resulty, resultz⟩)

/-- Count of base-10 digits of `n` (for `n > 0`), with explicit structural
fuel so that it reduces in the kernel. -/
def digitCount (fuel n : ℕ) : ℕ :=
  match fuel with
  | 0 => 0
  | fuel + 1 => if n < 10 then 1 else digitCount fuel (n / 10) + 1

/-- Number of decimal digits of a positive natural number. -/
def posDigits (n : ℕ) : ℕ := digitCount n n

/-- Whether `10 ^ k ≤ a / b`, for positive naturals `a`, `b` and an integer
exponent `k`, by cross-multiplication. -/
def tenPowLe (k : ℤ) (a b : ℕ) : Bool :=
  if 0 ≤ k then decide (10 ^ k.toNat * b ≤ a) else decide (b ≤ 10 ^ (-k).toNat * a)

/-- Round the positive fraction `a / b` to the nearest integer, ties to
even — the rounding used when a positive decimal is cut to a fixed number
of significant digits. -/
def roundHalfEvenND (a b : ℕ) : ℕ :=
  let f := a / b
  let r := a % b
  if 2 * r < b then f
  else if b < 2 * r then f + 1
  else if f % 2 = 0 then f else f + 1

/-- Decimal exponent of the positive fraction `a / b`: the unique `e` with
`10 ^ e ≤ a / b < 10 ^ (e + 1)`, located from the digit counts of numerator
and denominator and corrected by one comparison. -/
def decExpND (a b : ℕ) : ℤ :=
  let c : ℤ := (posDigits a : ℤ) - (posDigits b : ℤ) - 1
  if tenPowLe (c + 1) a b then c + 1 else c

/-- The character for a single decimal digit. -/
def digitChar10 (d : ℕ) : Char := Char.ofNat (48 + d)

/-- The four decimal digits of `n` (for `1000 ≤ n ≤ 9999`). -/
def fourDigits (n : ℕ) : List Char :=
  [digitChar10 (n / 1000), digitChar10 (n / 100 % 10), digitChar10 (n / 10 % 10),
   digitChar10 (n % 10)]

/-- Remove trailing zero digits (the general float format suppresses
trailing zeros of the fractional part). -/
def stripTrailingZeros (s : List Char) : List Char :=
  (s.reverse.dropWhile (fun c => c = '0')).reverse

/-- Python general float formatting at precision 4 (format spec `.4g`) of
the positive fraction `a / b`: the value is rounded to 4 significant
digits; if the decimal exponent `e` of the result satisfies `-4 ≤ e < 4` it
is rendered in fixed notation, otherwise in scientific notation with a
sign and an at least two-digit exponent; trailing fractional zeros (and a
then-dangling decimal point) are removed. -/
def g4pos (a b : ℕ) : List Char :=
  let e0 := decExpND a b
  let shift : ℤ := 3 - e0
  let n0 := roundHalfEvenND (a * 10 ^ shift.toNat) (b * 10 ^ (-shift).toNat)
  let n := if n0 = 10000 then 1000 else n0
  let e := if n0 = 10000 then e0 + 1 else e0
  let s := fourDigits n
  if -4 ≤ e ∧ e < 4 then
    if 0 ≤ e then
      let k := e.toNat + 1
      let ip := s.take k
      let fp := stripTrailingZeros (s.drop k)
      if fp = [] then ip else ip ++ ['.'] ++ fp
    else
      let fp := stripTrailingZeros (List.replicate (-e - 1).toNat '0' ++ s)
      ['0', '.'] ++ fp
  else
    let fp := stripTrailingZeros (s.drop 1)
    let mant := if fp = [] then s.take 1 else s.take 1 ++ ['.'] ++ fp
    let ea := e.natAbs
    let ed :=
      if ea < 10 then ['0', digitChar10 ea]
      else if ea < 100 then [digitChar10 (ea / 10), digitChar10 (ea % 10)]
      else [digitChar10 (ea / 100), digitChar10 (ea / 10 % 10), digitChar10 (ea % 10)]
    mant ++ ['e'] ++ [(if 0 ≤ e then '+' else '-')] ++ ed

/-- Python `format(q, ".4g")` on a rational: zero renders as `0`, a
negative value as the sign followed by the rendering of its absolute
value. -/
def pyFormatG4 (q : ℚ) : String :=
  if q = 0 then "0"
  else if q < 0 then String.mk (['-'] ++ g4pos q.num.natAbs q.den)
  else String.mk (g4pos q.num.natAbs q.den)

/-- `Methods.__repr__`: the format string is
`TVector3(` followed by the three coordinates each rendered with format
spec `.4g`, comma-space separated, and a closing parenthesis. -/
def TVector3.reprPy (v : TVector3 ℚ) : String :=
  "TVector3(" ++ pyFormatG4 v.fX ++ ", " ++ pyFormatG4 v.fY ++ ", " ++ pyFormatG4 v.fZ ++ ")"

/-- `Methods.__str__`: `return repr(self)`. -/
def TVector3.strPy (v : TVector3 ℚ) : String := TVector3.reprPy v

/-- C5: for every pair of vectors the cross product components are exactly
`(a.y*b.z - a.z*b.y, a.z*b.x - a.x*b.z, a.x*b.y - a.y*b.x)`, with this sign
convention, and the scalar `cross` builds a new vector from those three
components. -/
theorem cross_components (a b : TVector3 ℝ) :
    TVector3.cross a b =
      ⟨a.fY * b.fZ - a.fZ * b.fY,
       a.fZ * b.fX - a.fX * b.fZ,
       a.fX * b.fY - a.fY * b.fX⟩ := rfl

/-- C7: the dot product is commutative and the cross product is
anti-commutative componentwise (exactly, over the reals). -/
theorem dot_comm_cross_anticomm (a b : TVector3 ℝ) :
    Common.dot a b = Common.dot b a ∧
    (TVector3.cross a b).fX = -(TVector3.cross b a).fX ∧
    (TVector3.cross a b).fY = -(TVector3.cross b a).fY ∧
    (TVector3.cross a b).fZ = -(TVector3.cross b a).fZ := by
  refine ⟨?_, ?_, ?_, ?_⟩ <;>
    simp only [Common.dot, TVector3.cross, Common.crossTriple] <;> ring

/-- C1: the scalar `rotate_euler` never returns a vector: the source body is
`return self.__class__(x, y, z)` with `x`, `y`, `z` unbound, so it raises
`NameError` for every receiver and every choice of angles.  The helper
`_rotate_euler` (which `rotate_euler` was evidently meant to call, as the
batched method does) does implement the fused Z(phi)→Y(theta)→Z(psi)
rotation: its fused coefficients agree with the composition of the three
sequential rotations. -/
theorem rotate_euler_raises_nameError (v : TVector3 ℝ) (phi theta psi : ℝ) :
    TVector3.rotate_euler v phi theta psi = Except.error PyError.nameError ∧
    Common.rotateEulerTriple v phi theta psi =
      specRotZ psi (specRotY theta (specRotZ phi (v.fX, v.fY, v.fZ))) := by
  refine ⟨rfl, ?_⟩
  simp only [Common.rotateEulerTriple, specRotZ, specRotY, Prod.mk.injEq]
  refine ⟨by ring, by ring, by ring⟩

/-- Column of `TVector3Array.init`: the `fX` column is the input truncated
to the fixed row count. -/
theorem TVector3Array.init_fX (x y z : List R) :
    (TVector3Array.init x y z).fX = x.take (min (min x.length y.length) z.length) := rfl

/-- Column of `TVector3Array.init`: the `fY` column is the input truncated
to the fixed row count. -/
theorem TVector3Array.init_fY (x y z : List R) :
    (TVector3Array.init x y z).fY = y.take (min (min x.length y.length) z.length) := rfl

/-- Column of `TVector3Array.init`: the `fZ` column is the input truncated
to the fixed row count. -/
theorem TVector3Array.init_fZ (x y z : List R) :
    (TVector3Array.init x y z).fZ = z.take (min (min x.length y.length) z.length) := rfl

/-- C2: for every elementwise-dispatch invocation whose mode is not
`__call__` (reductions, accumulations, ...), the dispatch does not silently
coerce but raises; however the raise executed is `raise NotImplemented`,
which in Python 3 is a `TypeError` (`exceptions must derive from
BaseException`), not a `NotImplementedError`. -/
theorem array_ufunc_non_call_raises (op : ℝ → ℝ → ℝ) (method : String)
    (i1 i2 : UfuncInput ℝ) (h : method ≠ "__call__") :
    arrayUfunc2 op method i1 i2 = Except.error PyError.typeError := by
  unfold arrayUfunc2
  rw [if_pos h]

/-- C2 witness: the reduction mode on two concrete batched vectors. -/
theorem array_ufunc_non_call_raises_w :
    ("reduce" : String) ≠ "__call__" ∧
    arrayUfunc2 (fun u v : ℝ => u + v) "reduce" (UfuncInput.vec ⟨[1], [2], [3]⟩)
        (UfuncInput.vec ⟨[4], [5], [6]⟩) = Except.error PyError.typeError :=
  ⟨by decide, array_ufunc_non_call_raises (fun u v : ℝ => u + v) "reduce"
      (UfuncInput.vec ⟨[1], [2], [3]⟩) (UfuncInput.vec ⟨[4], [5], [6]⟩) (by decide)⟩

/-- C3: a row-selection-style invocation (ufunc method `at`) does not
return `None`: the `method != "__call__"` guard raises first (as a
`TypeError`, from `raise NotImplemented`), so the
`elif method == "at": return None` branch is unreachable dead code. -/
theorem array_ufunc_at_raises (op : ℝ → ℝ → ℝ) (i1 i2 : UfuncInput ℝ) :
    arrayUfunc2 op "at" i1 i2 = Except.error PyError.typeError := rfl

/-- C4: elementwise addition of two equal-length batched vectors adds the
three coordinate columns pairwise, and multiplication by a plain scalar
scales all three columns, each producing a new batched vector of the same
length; the model is pure, so the operand columns named in the statement
are the untouched originals. -/
theorem array_ufunc_add_and_scale (a b : TVector3Array ℝ) (c : ℝ) (n : ℕ)
    (hax : a.fX.length = n) (hay : a.fY.length = n) (haz : a.fZ.length = n)
    (hbx : b.fX.length = n) (hby : b.fY.length = n) (hbz : b.fZ.length = n) :
    (arrayUfunc2 (fun u v => u + v) "__call__" (UfuncInput.vec a) (UfuncInput.vec b) =
       Except.ok (some ⟨List.zipWith (fun u v => u + v) a.fX b.fX,
                        List.zipWith (fun u v => u + v) a.fY b.fY,
                        List.zipWith (fun u v => u + v) a.fZ b.fZ⟩)) ∧
    (List.zipWith (fun u v : ℝ => u + v) a.fX b.fX).length = n ∧
    (List.zipWith (fun u v : ℝ => u + v) a.fY b.fY).length = n ∧
    (List.zipWith (fun u v : ℝ => u + v) a.fZ b.fZ).length = n ∧
    (arrayUfunc2 (fun u v => u * v) "__call__" (UfuncInput.vec a) (UfuncInput.scalar c) =
       Except.ok (some ⟨a.fX.map (fun u => u * c), a.fY.map (fun u => u * c),
                        a.fZ.map (fun u => u * c)⟩)) ∧
    (a.fX.map (fun u => u * c)).length = n ∧
    (a.fY.map (fun u => u * c)).length = n ∧
    (a.fZ.map (fun u => u * c)).length = n := by
  refine ⟨rfl, ?_, ?_, ?_, rfl, ?_, ?_, ?_⟩ <;>
    simp [List.length_zipWith, hax, hay, haz, hbx, hby, hbz]

/-- C4 witness: singleton batches, scalar 2. -/
theorem array_ufunc_add_and_scale_w :
    ([(1 : ℝ)].length = 1) ∧
    ((arrayUfunc2 (fun u v : ℝ => u + v) "__call__" (UfuncInput.vec ⟨[1], [2], [3]⟩)
        (UfuncInput.vec ⟨[10], [20], [30]⟩) =
       Except.ok (some ⟨[(1 : ℝ) + 10], [(2 : ℝ) + 20], [(3 : ℝ) + 30]⟩)) ∧
     ([(1 : ℝ) + 10].length = 1) ∧
     ([(2 : ℝ) + 20].length = 1) ∧
     ([(3 : ℝ) + 30].length = 1) ∧
     (arrayUfunc2 (fun u v : ℝ => u * v) "__call__" (UfuncInput.vec ⟨[1], [2], [3]⟩)
        (UfuncInput.scalar 2) =
       Except.ok (some ⟨[(1 : ℝ) * 2], [(2 : ℝ) * 2], [(3 : ℝ) * 2]⟩)) ∧
     ([(1 : ℝ) * 2].length = 1) ∧
     ([(2 : ℝ) * 2].length = 1) ∧
     ([(3 : ℝ) * 2].length = 1)) :=
  ⟨rfl, array_ufunc_add_and_scale ⟨[1], [2], [3]⟩ ⟨[10], [20], [30]⟩ 2 1
      rfl rfl rfl rfl rfl rfl⟩

/-- C6: a batch constructed from columns of lengths `n1`, `n2`, `n3` has
row count `min n1 (min n2 n3)` (equivalently `min (min n1 n2) n3`) in all
three columns, so the columns always have identical length, and the
geometric operations (`cross`, `rotate_euler`) on batches of length `n`
return batches whose three columns all have length exactly `n`. -/
theorem batched_length_invariants (x y z : List ℝ) (a b : TVector3Array ℝ)
    (phi theta psi : ℝ) (n : ℕ)
    (hax : a.fX.length = n) (hay : a.fY.length = n) (haz : a.fZ.length = n)
    (hbx : b.fX.length = n) (hby : b.fY.length = n) (hbz : b.fZ.length = n) :
    ((TVector3Array.init x y z).fX.length = min (min x.length y.length) z.length ∧
     (TVector3Array.init x y z).fY.length = min (min x.length y.length) z.length ∧
     (TVector3Array.init x y z).fZ.length = min (min x.length y.length) z.length) ∧
    ((TVector3Array.cross a b).fX.length = n ∧
     (TVector3Array.cross a b).fY.length = n ∧
     (TVector3Array.cross a b).fZ.length = n) ∧
    ((TVector3Array.rotate_euler a phi theta psi).fX.length = n ∧
     (TVector3Array.rotate_euler a phi theta psi).fY.length = n ∧
     (TVector3Array.rotate_euler a phi theta psi).fZ.length = n) := by
  refine ⟨⟨?_, ?_, ?_⟩, ⟨?_, ?_, ?_⟩, ⟨?_, ?_, ?_⟩⟩
  · rw [TVector3Array.init_fX]; simp [List.length_take]
  · rw [TVector3Array.init_fY]; simp [List.length_take]
  · rw [TVector3Array.init_fZ]; simp [List.length_take]
  · simp [TVector3Array.cross, vsub, vmul, List.length_zipWith, hax, hay, haz, hbx, hby, hbz]
  · simp [TVector3Array.cross, vsub, vmul, List.length_zipWith, hax, hay, haz, hbx, hby, hbz]
  · simp [TVector3Array.cross, vsub, vmul, List.length_zipWith, hax, hay, haz, hbx, hby, hbz]
  · simp [TVector3Array.rotate_euler, vadd, vsmul, List.length_zipWith, hax, hay, haz]
  · simp [TVector3Array.rotate_euler, vadd, vsmul, List.length_zipWith, hax, hay, haz]
  · simp [TVector3Array.rotate_euler, vadd, vsmul, List.length_zipWith, hax, hay, haz]

/-- C6 witness: construction from columns of lengths 2, 1, 3 and the
operations on singleton batches. -/
theorem batched_length_invariants_w :
    ([(1 : ℝ)].length = 1) ∧
    (((TVector3Array.init [(0 : ℝ), 0] [(0 : ℝ)] [(0 : ℝ), 0, 0]).fX.length = 1 ∧
      (TVector3Array.init [(0 : ℝ), 0] [(0 : ℝ)] [(0 : ℝ), 0, 0]).fY.length = 1 ∧
      (TVector3Array.init [(0 : ℝ), 0] [(0 : ℝ)] [(0 : ℝ), 0, 0]).fZ.length = 1) ∧
     ((TVector3Array.cross (⟨[1], [2], [3]⟩ : TVector3Array ℝ) ⟨[4], [5], [6]⟩).fX.length = 1 ∧
      (TVector3Array.cross (⟨[1], [2], [3]⟩ : TVector3Array ℝ) ⟨[4], [5], [6]⟩).fY.length = 1 ∧
      (TVector3Array.cross (⟨[1], [2], [3]⟩ : TVector3Array ℝ) ⟨[4], [5], [6]⟩).fZ.length = 1) ∧
     ((TVector3Array.rotate_euler ⟨[1], [2], [3]⟩ 0 0 0).fX.length = 1 ∧
      (TVector3Array.rotate_euler ⟨[1], [2], [3]⟩ 0 0 0).fY.length = 1 ∧
      (TVector3Array.rotate_euler ⟨[1], [2], [3]⟩ 0 0 0).fZ.length = 1)) :=
  ⟨rfl, batched_length_invariants [(0 : ℝ), 0] [(0 : ℝ)] [(0 : ℝ), 0, 0]
      (⟨[1], [2], [3]⟩ : TVector3Array ℝ) ⟨[4], [5], [6]⟩ 0 0 0 1 rfl rfl rfl rfl rfl rfl⟩

/-- C8: a vector built by the scalar `from_spherical(r, theta, phi)` has
`sqrt(x^2 + y^2 + z^2) = r` whenever `r ≥ 0` (the polar-angle bounds are
carried along as stated in the claim but are not needed). -/
theorem from_spherical_mag (r theta phi : ℝ) (hr : 0 ≤ r) (h0 : 0 ≤ theta)
    (hpi : theta ≤ Real.pi) :
    Real.sqrt ((TVector3.from_spherical r theta phi).fX ^ 2 +
      (TVector3.from_spherical r theta phi).fY ^ 2 +
      (TVector3.from_spherical r theta phi).fZ ^ 2) = r := by
  have key : (r * Real.sin theta * Real.cos phi) ^ 2 +
      (r * Real.sin theta * Real.sin phi) ^ 2 + (r * Real.cos theta) ^ 2 = r ^ 2 := by
    have h1 := Real.sin_sq_add_cos_sq phi
    have h2 := Real.sin_sq_add_cos_sq theta
    linear_combination (r ^ 2 * Real.sin theta ^ 2) * h1 + r ^ 2 * h2
  show Real.sqrt ((r * Real.sin theta * Real.cos phi) ^ 2 +
      (r * Real.sin theta * Real.sin phi) ^ 2 + (r * Real.cos theta) ^ 2) = r
  rw [key, Real.sqrt_sq hr]

/-- C8 witness: `r = 1`, `theta = 0`, `phi = 0`. -/
theorem from_spherical_mag_w :
    (0 ≤ (1 : ℝ)) ∧ (0 ≤ (0 : ℝ)) ∧ ((0 : ℝ) ≤ Real.pi) ∧
    Real.sqrt ((TVector3.from_spherical 1 0 0).fX ^ 2 +
      (TVector3.from_spherical 1 0 0).fY ^ 2 +
      (TVector3.from_spherical 1 0 0).fZ ^ 2) = 1 :=
  ⟨zero_le_one, le_refl 0, Real.pi_nonneg,
   from_spherical_mag 1 0 0 zero_le_one (le_refl 0) Real.pi_nonneg⟩

/-- C9 counterexample: the repr of the vector `(1, 2, 3)` is
`TVector3(1, 2, 3)` — the `.4g` format suppresses trailing zeros — not the
claimed fixed four-significant-digit style `TVector3(1.000, 2.000,
3.000)`. -/
theorem reprPy_not_four_sig_digits :
    TVector3.reprPy ⟨1, 2, 3⟩ = "TVector3(1, 2, 3)" ∧
    TVector3.reprPy ⟨1, 2, 3⟩ ≠ "TVector3(1.000, 2.000, 3.000)" := by
  exact ⟨by decide, by decide⟩

/-- C9 (amended): the repr renders each coordinate with the Python general
float format at precision 4 — at most 4 significant digits, trailing zeros
suppressed — and `str` always returns exactly the `repr` string, so
repeated renderings of the same vector are identical. -/
theorem reprPy_g4_and_idempotent :
    (∀ v : TVector3 ℚ, TVector3.strPy v = TVector3.reprPy v) ∧
    TVector3.reprPy ⟨1, 2, 3⟩ = "TVector3(1, 2, 3)" ∧
    TVector3.reprPy ⟨mkRat 123456 100000, -2, mkRat 1 10000⟩ =
      "TVector3(1.235, -2, 0.0001)" := by
  exact ⟨fun v => rfl, by decide, by decide⟩

/-- C10: the batched `from_cylindrical` takes four parameters
`(r, rho, phi, z)` where the scalar form takes three, and its result does
not depend on `r` at all; the constructed columns are the elementwise
`rho * cos(phi)`, `rho * sin(phi)` and `z`. -/
theorem from_cylindrical_ignores_r :
    (∀ r1 r2 rho phi z : List ℝ,
       TVector3Array.from_cylindrical r1 rho phi z =
         TVector3Array.from_cylindrical r2 rho phi z) ∧
    (∀ (rho phi z : List ℝ) (n : ℕ), rho.length = n → phi.length = n → z.length = n →
       (TVector3Array.from_cylindrical [] rho phi z).fX =
           List.zipWith (fun u v => u * Real.cos v) rho phi ∧
       (TVector3Array.from_cylindrical [] rho phi z).fY =
           List.zipWith (fun u v => u * Real.sin v) rho phi ∧
       (TVector3Array.from_cylindrical [] rho phi z).fZ = z) := by
  constructor
  · intro r1 r2 rho phi z
    rfl
  · intro rho phi z n h1 h2 h3
    refine ⟨?_, ?_, ?_⟩
    · rw [show (TVector3Array.from_cylindrical [] rho phi z).fX =
          (vmul rho (phi.map Real.cos)).take
            (min (min (vmul rho (phi.map Real.cos)).length
              (vmul rho (phi.map Real.sin)).length) z.length) from rfl]
      rw [List.take_of_length_le] <;>
        simp [vmul, List.zipWith_map_right, List.length_zipWith, h1, h2, h3]
    · rw [show (TVector3Array.from_cylindrical [] rho phi z).fY =
          (vmul rho (phi.map Real.sin)).take
            (min (min (vmul rho (phi.map Real.cos)).length
              (vmul rho (phi.map Real.sin)).length) z.length) from rfl]
      rw [List.take_of_length_le] <;>
        simp [vmul, List.zipWith_map_right, List.length_zipWith, h1, h2, h3]
    · rw [show (TVector3Array.from_cylindrical [] rho phi z).fZ =
          z.take (min (min (vmul rho (phi.map Real.cos)).length
            (vmul rho (phi.map Real.sin)).length) z.length) from rfl]
      rw [List.take_of_length_le] <;>
        simp [vmul, List.zipWith_map_right, List.length_zipWith, h1, h2, h3]

/-- C10 witness: `rho = [2]`, `phi = [0]`, `z = [7]`. -/
theorem from_cylindrical_ignores_r_w :
    ([(2 : ℝ)].length = 1) ∧
    ((TVector3Array.from_cylindrical [] [2] [0] [7]).fX =
        List.zipWith (fun u v => u * Real.cos v) [(2 : ℝ)] [(0 : ℝ)] ∧
     (TVector3Array.from_cylindrical [] [2] [0] [7]).fY =
        List.zipWith (fun u v => u * Real.sin v) [(2 : ℝ)] [(0 : ℝ)] ∧
     (TVector3Array.from_cylindrical [] [2] [0] [7]).fZ = [(7 : ℝ)]) :=
  ⟨rfl, from_cylindrical_ignores_r.2 [2] [0] [7] 1 rfl rfl rfl⟩
